import Mathlib

/-
  Verification of the Confique backend (rishabhraj457/kiit).

  Shallow embedding of the post / registration data model and the request
  handlers of src/backend/routes/postRoutes.js and src/backend/minimal-server.js.

  Modelling conventions:
  - MongoDB ObjectIds are Nat; document stores are Lean lists.
  - JS strings are String, JS numbers that hold counters are Int
    (so that "never negative" is a real statement), prices are Int.
  - A JSON request body field that may be absent is an Option; JS
    "undefined or falsy" checks are modelled on Option String with
    isEmpty for the empty string.
  - Cloudinary uploads are modelled as the identity on the provided data
    string (the external object store is out of scope per the spec) and
    best-effort deletions are omitted: they never change documents.
  - The in-process response cache (node-cache) is a pure optimisation and
    is not modelled.
  - Handlers return Except HErr: an error response writes nothing, so a
    collection is unchanged exactly when the handler returns .error.
-/

deriving instance DecidableEq for Except

namespace Confique

/-- HTTP-level error classes used by the handlers (400 / 403 / 404). -/
inductive HErr where
  | badRequest (msg : String)
  | forbidden (msg : String)
  | notFound (msg : String)
deriving DecidableEq, Repr

/-- Sub-schema ticketOptionSchema of models/Post.js: a (ticketType, ticketPrice) pair. -/
structure TicketOption where
  ticketType : String
  ticketPrice : Int
deriving DecidableEq, Repr

/-- Sub-schema commentSchema of models/Post.js (comments on regular posts). -/
structure Comment where
  author : String
  authorAvatar : String
  text : String
  timestamp : Nat
  userId : Nat
deriving DecidableEq, Repr

/-- Sub-schema showcaseCommentSchema of models/Post.js. The id field models
the subdocument _id used by removeShowcaseComment. -/
structure ShowcaseComment where
  id : Nat
  user : Nat
  text : String
  timestamp : Nat
  author : String
  authorAvatar : String
deriving DecidableEq, Repr

/-- The Post document of models/Post.js, at the level the write path sets
fields: a field a handler strips (sets to undefined) is none. Counters are
Int, mirroring JS numbers. The type and status enums are the literal strings
used by the code. -/
structure Post where
  id : Nat
  type : String
  title : String
  content : String
  images : List String
  author : String
  authorAvatar : String
  userId : Nat
  timestamp : Nat
  likes : Int
  likedBy : List Nat
  comments : Int
  commentData : List Comment
  status : String
  source : Option String
  location : Option String
  eventStartDate : Option String
  eventEndDate : Option String
  price : Option Int
  language : Option String
  duration : Option String
  ticketsNeeded : Option String
  venueAddress : Option String
  registrationLink : Option String
  registrationOpen : Option Bool
  enableRegistrationForm : Option Bool
  registrationFields : Option String
  paymentMethod : Option String
  paymentLink : Option String
  paymentQRCode : Option String
  ticketOptions : Option (List TicketOption)
  culturalPaymentMethod : Option String
  culturalPaymentLink : Option String
  culturalPaymentQRCode : Option String
  availableDates : Option (List String)
  description : Option String
  fullDescription : Option String
  websiteLink : Option String
  logoUrl : Option String
  bannerUrl : Option String
  month : Option String
  launchedDate : Option String
  upvotes : Int
  upvoters : List Nat
  showcaseComments : List ShowcaseComment
  commentCount : Int
  views : Int
deriving DecidableEq, Repr, Inhabited

/-- The User document fields relevant to the modelled handlers. -/
structure UserRec where
  id : Nat
  name : String
  avatar : String
  isAdmin : Bool
deriving DecidableEq, Repr

/-- The Notification document of models/Notification.js (the schema appears in
src/backend/middleware/auth.js after the concatenated-file separator).
recipient is required (non-optional here); there is no user path; the type
enum is notifTypeEnum below, which contains registration, report and comment
but not upvote. The Mixed metadata field carries display-only data and is
read by no modelled handler, so it is omitted. -/
structure Notification where
  id : Nat
  message : String
  timestamp : Nat
  type : String
  recipient : Nat
  isRead : Bool
  reporter : Option Nat
  postId : Option Nat
  reportReason : Option String
  relatedUser : Option Nat
  relatedPost : Option Nat
  readAt : Option Nat
  priority : String
  actionUrl : Option String
deriving DecidableEq, Repr, Inhabited

/-- The type enum of notificationSchema. -/
def notifTypeEnum : List String :=
  ["warning", "success", "info", "report", "registration", "like", "comment",
   "showcase_upvote", "showcase_comment", "showcase_featured",
   "showcase_approved", "showcase_system", "showcase_bookmark",
   "showcase_new_idea", "showcase_winner"]

/-- The Registration document of models/Post.js (registrationSchema).
customFields is the Mixed map, kept as an association list. -/
structure SelTicket where
  ticketType : Option String
  ticketPrice : Option Int
  quantity : Option Int
deriving DecidableEq, Repr

structure Registration where
  id : Nat
  eventId : Nat
  userId : Nat
  name : String
  email : String
  phone : Option String
  transactionId : Option String
  customFields : List (String × String)
  bookingDates : List String
  selectedTickets : List SelTicket
  totalPrice : Option Int
  paymentStatus : String
  createdAt : Nat
deriving DecidableEq, Repr, Inhabited

/-- JS whitespace characters relevant to String.prototype.trim. -/
def isWsChar (c : Char) : Bool :=
  c == ' ' || c == '\t' || c == '\n' || c == '\r'

/-- JS String.prototype.trim: strip leading and trailing whitespace (written
over the character list so that it evaluates inside the kernel). -/
def jsTrim (s : String) : String :=
  String.mk (((s.data.dropWhile isWsChar).reverse.dropWhile isWsChar).reverse)

/-- JS falsy check on an optional string value (undefined or the empty string). -/
def isFalsyStr : Option String → Bool
  | none => true
  | some s => s == ""

/-- validateText of postRoutes.js: text is truthy and its trimmed length is
within the bounds (the JS defaults are min 1, max 1000, passed explicitly at
call sites). -/
def validateText (text : Option String) (lo hi : Nat) : Bool :=
  match text with
  | none => false
  | some s =>
    !(s == "") && decide (lo ≤ (jsTrim s).length) &&
      decide ((jsTrim s).length ≤ hi)

/-- validatePostType of postRoutes.js. -/
def validPostTypes : List String :=
  ["confession", "event", "culturalEvent", "news", "showcase"]

def validatePostType (ty : String) : Bool :=
  validPostTypes.contains ty

/-- The hard showcase submission cutoff of the create handler, as epoch
milliseconds of 2025-10-31T23:59:59. -/
def SUBMISSION_DEADLINE : Nat := 1761955199000

/-- JS truthiness filter for an optional string: the empty string counts as
absent (used where the source writes "if (value) ..." or "value || dflt"). -/
def truthyStr : Option String → Option String
  | none => none
  | some s => if s == "" then none else some s

/-- JS "value || dflt" on an optional string. -/
def strOr (v : Option String) (dflt : String) : String :=
  match v with
  | none => dflt
  | some s => if s == "" then dflt else s

/-- A request body for the create and update handlers of postRoutes.js.
The first block lists the destructured keys; the rest corresponds to
restOfPostData / rest (schema paths settable through the spread). Counter
fields (likes, commentData, and the showcase counters) are initialised by the
create handler itself and are not modelled as body inputs. -/
structure Body where
  type : Option String
  images : Option (List String)
  paymentQRCode : Option String
  culturalPaymentQRCode : Option String
  paymentMethod : Option String
  ticketOptions : Option (List TicketOption)
  culturalPaymentMethod : Option String
  availableDates : Option (List String)
  title : Option String
  content : Option String
  status : Option String
  source : Option String
  location : Option String
  eventStartDate : Option String
  eventEndDate : Option String
  price : Option Int
  language : Option String
  duration : Option String
  ticketsNeeded : Option String
  venueAddress : Option String
  registrationLink : Option String
  registrationOpen : Option Bool
  enableRegistrationForm : Option Bool
  registrationFields : Option String
  paymentLink : Option String
  culturalPaymentLink : Option String
  description : Option String
  fullDescription : Option String
  websiteLink : Option String
  logoUrl : Option String
  bannerUrl : Option String
  month : Option String
  launchedDate : Option String
deriving DecidableEq, Repr

/-- A body with every field absent, for building concrete requests. -/
def Body.empty : Body :=
  { type := none, images := none, paymentQRCode := none,
    culturalPaymentQRCode := none, paymentMethod := none, ticketOptions := none,
    culturalPaymentMethod := none, availableDates := none, title := none,
    content := none, status := none, source := none, location := none,
    eventStartDate := none, eventEndDate := none, price := none,
    language := none, duration := none, ticketsNeeded := none,
    venueAddress := none, registrationLink := none, registrationOpen := none,
    enableRegistrationForm := none, registrationFields := none,
    paymentLink := none, culturalPaymentLink := none, description := none,
    fullDescription := none, websiteLink := none, logoUrl := none,
    bannerUrl := none, month := none, launchedDate := none }

/-- The newPostData object built by the create handler (POST /api/posts),
after the spread of restOfPostData, the explicit common fields, the showcase
defaults block, and the per-type field cleanup. nowMonth and nowDateIN stand
for the locale-formatted current month and date strings. -/
def buildNewPostData (now uid : Nat) (userName userAvatar : String)
    (nowMonth nowDateIN : String) (newId : Nat) (ty : String) (body : Body) :
    Post :=
  let base : Post :=
    { id := newId
      type := ty
      title := body.title.getD ""
      content := body.content.getD ""
      images := body.images.getD []
      author := userName
      authorAvatar := userAvatar
      userId := uid
      timestamp := now
      likes := 0
      likedBy := []
      comments := 0
      commentData := []
      status := if ty == "event" || ty == "culturalEvent" then "pending" else "approved"
      source := body.source
      location := body.location
      eventStartDate := body.eventStartDate
      eventEndDate := body.eventEndDate
      price := body.price
      language := body.language
      duration := body.duration
      ticketsNeeded := body.ticketsNeeded
      venueAddress := body.venueAddress
      registrationLink := body.registrationLink
      registrationOpen := body.registrationOpen
      enableRegistrationForm := body.enableRegistrationForm
      registrationFields := body.registrationFields
      paymentMethod := none
      paymentLink := body.paymentLink
      paymentQRCode := none
      ticketOptions := none
      culturalPaymentMethod := none
      culturalPaymentLink := body.culturalPaymentLink
      culturalPaymentQRCode := none
      availableDates := none
      description := body.description
      fullDescription := body.fullDescription
      websiteLink := body.websiteLink
      logoUrl := body.logoUrl
      bannerUrl := body.bannerUrl
      month := body.month
      launchedDate := body.launchedDate
      upvotes := 0
      upvoters := []
      showcaseComments := []
      commentCount := 0
      views := 0 }
  if ty == "event" then
    { base with
      paymentQRCode := truthyStr body.paymentQRCode
      paymentMethod :=
        if body.paymentMethod == some "link" || body.paymentMethod == some "qr"
        then body.paymentMethod else none
      ticketOptions := none
      culturalPaymentMethod := none
      culturalPaymentLink := none
      culturalPaymentQRCode := none
      availableDates := none }
  else if ty == "culturalEvent" then
    { base with
      culturalPaymentQRCode := truthyStr body.culturalPaymentQRCode
      ticketOptions := body.ticketOptions
      culturalPaymentMethod := body.culturalPaymentMethod
      availableDates := body.availableDates
      price := none
      paymentMethod := none
      paymentLink := none
      paymentQRCode := none }
  else if ty == "showcase" then
    { base with
      month := some (strOr body.month nowMonth)
      launchedDate := some (strOr body.launchedDate nowDateIN)
      status := "approved"
      location := none
      eventStartDate := none
      eventEndDate := none
      price := none
      language := none
      duration := none
      registrationLink := none
      registrationOpen := none
      enableRegistrationForm := none
      registrationFields := none
      paymentMethod := none
      paymentLink := none
      paymentQRCode := none
      source := none
      ticketOptions := none
      culturalPaymentMethod := none
      culturalPaymentLink := none
      culturalPaymentQRCode := none
      availableDates := none }
  else
    { base with
      location := none
      eventStartDate := none
      eventEndDate := none
      price := none
      language := none
      duration := none
      registrationLink := none
      registrationOpen := none
      enableRegistrationForm := none
      registrationFields := none
      paymentMethod := none
      paymentLink := none
      paymentQRCode := none
      source := none
      ticketOptions := none
      culturalPaymentMethod := none
      culturalPaymentLink := none
      culturalPaymentQRCode := none
      availableDates := none }

/-- Validity of a Post document against the constraints of postSchema in
models/Post.js that a handler-constructed document can violate: required and
maxlength on title, content and author (validators see the trim-setter
normalised value), the type and status enums, the paymentMethod and
culturalPaymentMethod enums, required ticketType and min 0 ticketPrice on
every ticket option, maxlength on description and fullDescription, min 0 on
the showcase counters, and the required fields of the embedded comment
sub-schemas. A save of an invalid document throws a ValidationError, which
both write handlers turn into a 400 response without storing anything. -/
def postSchemaValid (p : Post) : Bool :=
  !(jsTrim p.title == "") && decide ((jsTrim p.title).length ≤ 100) &&
  !(jsTrim p.content == "") &&
  !(jsTrim p.author == "") &&
  validPostTypes.contains p.type &&
  ["pending", "approved", "rejected"].contains p.status &&
  (match p.paymentMethod with
   | none => true
   | some m => ["link", "qr"].contains m) &&
  (match p.culturalPaymentMethod with
   | none => true
   | some m => ["link", "qr", "qr-screenshot"].contains m) &&
  (match p.ticketOptions with
   | none => true
   | some ts => ts.all (fun t => !(t.ticketType == "") && decide (0 ≤ t.ticketPrice))) &&
  (match p.description with
   | none => true
   | some d => decide ((jsTrim d).length ≤ 200)) &&
  (match p.fullDescription with
   | none => true
   | some d => decide ((jsTrim d).length ≤ 5000)) &&
  decide (0 ≤ p.upvotes) && decide (0 ≤ p.commentCount) &&
  p.commentData.all (fun c => !(c.author == "") && !(c.text == "")) &&
  p.showcaseComments.all (fun c =>
    !(jsTrim c.text == "") && decide ((jsTrim c.text).length ≤ 1000) &&
      !(c.author == ""))

/-- The pre save hook of models/Post.js, as it acts at the modelled call
sites: mongoose validates the document first (validation is an earlier
pre-save hook), then this hook runs. Its comment-count sync fires only when
an embedded list was modified (the create handler initialises both lists and
counters consistently and the update handler modifies neither list, so the
sync never changes anything here) and its array initialisation is a no-op on
the always-present list fields; what remains is the showcase defaulting of a
falsy month to the locale-formatted current month and of a falsy launchedDate
to Coming Soon. -/
def preSaveShowcaseDefaults (nowMonth : String) (p : Post) : Post :=
  if p.type == "showcase" then
    { p with
      month := if isFalsyStr p.month then some nowMonth else p.month
      launchedDate :=
        if isFalsyStr p.launchedDate then some "Coming Soon" else p.launchedDate }
  else p

/-- The create handler POST /api/posts of postRoutes.js: the validation chain
(required type, title and content; valid post type; title and content length;
the showcase submission deadline), construction of the new document, then the
save: schema validation (a ValidationError answers 400 with a message listing
the field errors, modelled by its fixed prefix) followed by the pre save
hook. -/
def createPost (now uid : Nat) (userName userAvatar : String)
    (nowMonth nowDateIN : String) (newId : Nat) (body : Body) :
    Except HErr Post :=
  if isFalsyStr body.type || isFalsyStr body.title || isFalsyStr body.content then
    .error (.badRequest "Type, title, and content are required")
  else if !validatePostType (body.type.getD "") then
    .error (.badRequest "Invalid post type")
  else if !validateText body.title 1 100 then
    .error (.badRequest "Title must be between 1 and 100 characters")
  else if !validateText body.content 1 1000 then
    .error (.badRequest "Content is required")
  else if body.type == some "showcase" && decide (SUBMISSION_DEADLINE < now) then
    .error (.badRequest "Submissions are closed for Startup Showcase. The deadline was October 31, 2025.")
  else if postSchemaValid (buildNewPostData now uid userName userAvatar
      nowMonth nowDateIN newId (body.type.getD "") body) then
    .ok (preSaveShowcaseDefaults nowMonth
          (buildNewPostData now uid userName userAvatar nowMonth nowDateIN newId
            (body.type.getD "") body))
  else
    .error (.badRequest "Validation Failed")

/-- Overwrite a field when the request body carries it, keep the stored value
otherwise (the JS object spread of rest into post.set). -/
def updOptField {α : Type} (provided : Option α) (old : Option α) : Option α :=
  match provided with
  | some v => some v
  | none => old

/-- The image replacement block of the update handler: a provided images key
replaces the stored list (old Cloudinary assets are deleted best-effort,
uploads are modelled as the identity). -/
def updateImages (post : Post) (body : Body) : Post :=
  match body.images with
  | some imgs => { post with images := imgs }
  | none => post

/-- The QR-code replacement computation of the update handler, keyed on the
old post type: none leaves the stored QR path untouched, some none clears it
(an empty string was sent), some (some url) replaces it. -/
def updateNewQrCodeUrl (post : Post) (body : Body) : Option (Option String) :=
  let oldQr : Option String :=
    if post.type == "event" then post.paymentQRCode else post.culturalPaymentQRCode
  let newQrData : Option String :=
    if post.type == "event" then body.paymentQRCode else body.culturalPaymentQRCode
  match newQrData with
  | none => none
  | some s =>
    if some s == oldQr then none
    else if !(s == "") then some (some s)
    else some none

/-- The post.set block of the update handler: the explicit type, title,
content, paymentMethod and cultural fields (the latter keyed on the old type),
followed by the rest spread. withImages is the post after the image block;
post is the stored document the handler destructured from. -/
def updateSetFields (post withImages : Post) (body : Body) : Post :=
  { withImages with
        type := body.type.getD post.type
        title := body.title.getD post.title
        content := body.content.getD post.content
        paymentMethod :=
          if body.paymentMethod == some "link" || body.paymentMethod == some "qr"
          then body.paymentMethod else none
        ticketOptions :=
          if post.type == "culturalEvent" then body.ticketOptions else none
        culturalPaymentMethod :=
          if post.type == "culturalEvent" then body.culturalPaymentMethod else none
        availableDates :=
          if post.type == "culturalEvent" then body.availableDates else none
        source := updOptField body.source post.source
        location := updOptField body.location post.location
        eventStartDate := updOptField body.eventStartDate post.eventStartDate
        eventEndDate := updOptField body.eventEndDate post.eventEndDate
        price := updOptField body.price post.price
        language := updOptField body.language post.language
        duration := updOptField body.duration post.duration
        ticketsNeeded := updOptField body.ticketsNeeded post.ticketsNeeded
        venueAddress := updOptField body.venueAddress post.venueAddress
        registrationLink := updOptField body.registrationLink post.registrationLink
        registrationOpen := updOptField body.registrationOpen post.registrationOpen
        enableRegistrationForm :=
          updOptField body.enableRegistrationForm post.enableRegistrationForm
        registrationFields := updOptField body.registrationFields post.registrationFields
        paymentLink := updOptField body.paymentLink post.paymentLink
        paymentQRCode := updOptField body.paymentQRCode post.paymentQRCode
        culturalPaymentLink := updOptField body.culturalPaymentLink post.culturalPaymentLink
        culturalPaymentQRCode :=
          updOptField body.culturalPaymentQRCode post.culturalPaymentQRCode
        description := updOptField body.description post.description
        fullDescription := updOptField body.fullDescription post.fullDescription
        websiteLink := updOptField body.websiteLink post.websiteLink
        logoUrl := updOptField body.logoUrl post.logoUrl
        bannerUrl := updOptField body.bannerUrl post.bannerUrl
        month := updOptField body.month post.month
        launchedDate := updOptField body.launchedDate post.launchedDate }

/-- The admin-only status write of the update handler. -/
def updateAdminStatus (isAdmin : Bool) (body : Body) (p : Post) : Post :=
  if isAdmin then
    match body.status with
    | some st => { p with status := st }
    | none => p
  else p

/-- The QR overlay of the update handler, keyed on the new post type. -/
def updateQrOverlay (newQrCodeUrl : Option (Option String)) (p : Post) : Post :=
  if p.type == "event" then
    match newQrCodeUrl with
    | some v => { p with paymentQRCode := v }
    | none => p
  else if p.type == "culturalEvent" then
    match newQrCodeUrl with
    | some v => { p with culturalPaymentQRCode := v }
    | none => p
  else p

/-- The per-type field cleanup of the update handler, keyed on the new post
type. -/
def updateTypeCleanup (p : Post) : Post :=
  if p.type == "event" then
    { p with
      culturalPaymentMethod := none
      culturalPaymentLink := none
      culturalPaymentQRCode := none
      availableDates := none }
  else if p.type == "culturalEvent" then
    { p with
      price := none
      paymentMethod := none
      paymentLink := none
      paymentQRCode := none }
  else if p.type == "showcase" then
    { p with
      location := none
      eventStartDate := none
      eventEndDate := none
      price := none
      language := none
      duration := none
      registrationLink := none
      registrationOpen := none
      enableRegistrationForm := none
      registrationFields := none
      paymentMethod := none
      paymentLink := none
      paymentQRCode := none
      source := none
      ticketOptions := none
      culturalPaymentMethod := none
      culturalPaymentLink := none
      culturalPaymentQRCode := none
      availableDates := none }
  else
    { p with
      location := none
      eventStartDate := none
      eventEndDate := none
      price := none
      language := none
      duration := none
      registrationLink := none
      registrationOpen := none
      enableRegistrationForm := none
      registrationFields := none
      paymentMethod := none
      paymentLink := none
      paymentQRCode := none
      source := none
      ticketOptions := none
      culturalPaymentMethod := none
      culturalPaymentLink := none
      culturalPaymentQRCode := none
      availableDates := none }

/-- The successful write path of the update handler: image block, post.set
with the rest spread, admin status, QR overlay, per-type cleanup. -/
def updateApply (isAdmin : Bool) (post : Post) (body : Body) : Post :=
  updateTypeCleanup
    (updateQrOverlay (updateNewQrCodeUrl post body)
      (updateAdminStatus isAdmin body
        (updateSetFields post (updateImages post body) body)))

/-- The update handler PUT /api/posts/:id of postRoutes.js, given the found
post. Mirrors: the ownership check, the per-field validation (an invalid or
empty provided type, title or content is rejected with a 400, merging the
mongoose save-time ValidationError with the explicit handler checks, both of
which answer 400 without writing), then the write path of updateApply
followed by the save: schema validation (a ValidationError answers 400,
modelled by the fixed prefix of its message) and the pre save hook of
models/Post.js, whose comment-count sync is inert here because neither
embedded list is modified. -/
def updatePost (uid : Nat) (isAdmin : Bool) (nowMonth : String) (post : Post)
    (body : Body) : Except HErr Post :=
  if post.userId ≠ uid ∧ ¬ isAdmin then
    .error (.forbidden "You are not authorized to update this post")
  else if (match body.type with
           | some s => !validatePostType s
           | none => false) then
    .error (.badRequest "Invalid post type")
  else if (match body.title with
           | some t => !validateText (some t) 1 100
           | none => false) then
    .error (.badRequest "Title must be between 1 and 100 characters")
  else if (match body.content with
           | some c => !validateText (some c) 1 1000
           | none => false) then
    .error (.badRequest "Content is required")
  else if postSchemaValid (updateApply isAdmin post body) then
    .ok (preSaveShowcaseDefaults nowMonth (updateApply isAdmin post body))
  else
    .error (.badRequest "Validation Failed during update")

/-- The like handler PUT /api/posts/:id/like of postRoutes.js, given the
found post. Rejects a second like by the same user with a 400 and writes
nothing in that case. -/
def likePost (uid : Nat) (p : Post) : Except HErr Post :=
  if p.likedBy.contains uid then
    .error (.badRequest "You have already liked this post")
  else
    .ok { p with likes := p.likes + 1, likedBy := p.likedBy ++ [uid] }

/-- The unlike handler PUT /api/posts/:id/unlike of postRoutes.js, given the
found post. The decrement is guarded by likes being positive. -/
def unlikePost (uid : Nat) (p : Post) : Except HErr Post :=
  if !p.likedBy.contains uid then
    .error (.badRequest "You have not liked this post")
  else
    .ok { p with
          likes := if 0 < p.likes then p.likes - 1 else p.likes,
          likedBy := p.likedBy.filter (fun x => x != uid) }

/-- The upvote toggle handler PUT /api/posts/:id/upvote of postRoutes.js,
given the found post. The add branch also attempts a best-effort Notification
write for the post creator, but the constructed payload omits the required
recipient (it sets a user key the schema has no path for) and uses type
upvote, which is absent from the Notification type enum, so that save always
fails validation; the failure is caught and only logged. No notification is
ever stored and the upvote itself is unaffected, so the handler result is the
post alone (userName, newNotifId and now feed only that always-failing
attempt). -/
def upvotePost (uid : Nat) (userName : String) (newNotifId now : Nat)
    (p : Post) : Except HErr Post :=
  if p.type != "showcase" then
    .error (.badRequest "Only showcase posts can be upvoted")
  else if p.userId == uid then
    .error (.badRequest "You cannot upvote your own post")
  else if p.upvoters.any (fun x => x == uid) then
    .ok { p with
          upvotes := max 0 (p.upvotes - 1),
          upvoters := p.upvoters.filter (fun x => x != uid) }
  else
    .ok { p with
          upvotes := p.upvotes + 1,
          upvoters := p.upvoters ++ [uid] }

/-- postSchema.methods.addUpvote of models/Post.js. -/
def addUpvote (p : Post) (userId : Nat) : Post :=
  if !p.upvoters.contains userId then
    { p with upvoters := p.upvoters ++ [userId], upvotes := p.upvotes + 1 }
  else p

/-- postSchema.methods.removeUpvote of models/Post.js: remove the first
occurrence found by findIndex and floor the counter at zero. -/
def removeUpvote (p : Post) (userId : Nat) : Post :=
  if p.upvoters.any (fun x => x == userId) then
    { p with
      upvoters := p.upvoters.eraseP (fun x => x == userId),
      upvotes := max 0 (p.upvotes - 1) }
  else p

/-- postSchema.methods.addShowcaseComment of models/Post.js: push and set the
counter to the list length. -/
def addShowcaseComment (p : Post) (c : ShowcaseComment) : Post :=
  let sc := p.showcaseComments ++ [c]
  { p with showcaseComments := sc, commentCount := (sc.length : Int) }

/-- postSchema.methods.removeShowcaseComment of models/Post.js: splice out the
comment found by id and floor the counter at zero. -/
def removeShowcaseComment (p : Post) (commentId : Nat) : Post :=
  if p.showcaseComments.any (fun c => c.id == commentId) then
    { p with
      showcaseComments := p.showcaseComments.eraseP (fun c => c.id == commentId),
      commentCount := max 0 (p.commentCount - 1) }
  else p

/-- The showcase comment handler POST /api/posts/:id/showcase-comments of
postRoutes.js, given the found post: validates the text, requires a showcase
post, pushes the comment and sets commentCount to the list length. -/
def addShowcaseCommentRoute (uid : Nat) (userName userAvatar : String)
    (now cid : Nat) (text : String) (p : Post) : Except HErr Post :=
  if !validateText (some text) 1 1000 then
    .error (.badRequest "Comment must be between 1 and 1000 characters")
  else if p.type != "showcase" then
    .error (.badRequest "Only showcase posts can use this comment endpoint")
  else
    let sc := p.showcaseComments ++
      [{ id := cid, user := uid, text := jsTrim text, timestamp := now,
         author := userName, authorAvatar := userAvatar }]
    .ok { p with showcaseComments := sc, commentCount := (sc.length : Int) }

/-- A request body for the registration handler: the destructured fields plus
the remaining keys, which the handler stores as customFields. -/
structure RegBody where
  name : Option String
  email : Option String
  phone : Option String
  transactionId : Option String
  bookingDates : Option (List String)
  selectedTickets : Option (List SelTicket)
  totalPrice : Option Int
  customFields : List (String × String)
deriving DecidableEq, Repr

/-- A registration body with every field absent. -/
def RegBody.empty : RegBody :=
  { name := none, email := none, phone := none, transactionId := none,
    bookingDates := none, selectedTickets := none, totalPrice := none,
    customFields := [] }

/-- The event registration handler POST /api/users/register-event/:eventId of
minimal-server.js: find the event, reject a duplicate (eventId, userId)
registration with a 400, require name and email, create the Registration and
send a Notification to the event creator when that user exists. -/
def registerEvent (db : List Post) (regs : List Registration)
    (notifs : List Notification) (users : List UserRec)
    (uid : Nat) (userName : String) (eventId : Nat) (body : RegBody)
    (newRegId newNotifId now : Nat) :
    Except HErr (List Registration × List Notification) :=
  match db.find? (fun p => p.id == eventId) with
  | none => .error (.notFound "Event not found")
  | some event =>
    if regs.any (fun r => r.eventId == eventId && r.userId == uid) then
      .error (.badRequest "You are already registered for this event")
    else if isFalsyStr body.name || isFalsyStr body.email then
      .error (.badRequest "Name and email are required")
    else
      let newReg : Registration :=
        { id := newRegId, eventId := eventId, userId := uid,
          name := body.name.getD "", email := body.email.getD "",
          phone := body.phone, transactionId := body.transactionId,
          customFields := body.customFields,
          bookingDates := body.bookingDates.getD [],
          selectedTickets := body.selectedTickets.getD [],
          totalPrice := body.totalPrice,
          paymentStatus := "pending", createdAt := now }
      let regs1 := regs ++ [newReg]
      let notifs1 :=
        match users.find? (fun u => u.id == event.userId) with
        | some creator =>
          notifs ++
            [{ id := newNotifId,
               message := userName ++ " has registered for your event \"" ++
                 event.title ++ "\"!",
               timestamp := now, type := "registration",
               recipient := creator.id, isRead := false, reporter := none,
               postId := some event.id, reportReason := none,
               relatedUser := none, relatedPost := none, readAt := none,
               priority := "medium", actionUrl := none }]
        | none => notifs
      .ok (regs1, notifs1)

/-- A CSV data row: ordered (column, value) pairs. -/
abbrev Row : Type := List (String × String)

/-- The fixed CSV header columns of the export handler. -/
def fixedHeaders : List String :=
  ["Name", "Email", "Phone", "Transaction ID", "Registered At",
   "Booking Dates", "Total Price", "Ticket Type", "Ticket Quantity",
   "Ticket Price"]

/-- The custom-field column names observed on one registration. -/
def regCustomKeys (r : Registration) : List String :=
  r.customFields.map Prod.fst

/-- Set.add on the ordered header list: append the key when absent. -/
def addHeader (hs : List String) (k : String) : List String :=
  if hs.contains k then hs else hs ++ [k]

/-- The header set built by the export loop: the fixed columns plus every
custom-field key observed across the registrations of the event. -/
def buildHeaders (regs : List Registration) : List String :=
  regs.foldl (fun hs r => (regCustomKeys r).foldl addHeader hs) fixedHeaders

/-- JS "value || emptyString" on an optional number: zero is falsy and is
rendered as the empty string like an absent value. -/
def numCell : Option Int → String
  | none => ""
  | some v => if v == 0 then "" else toString v

/-- The baseData object of the export loop for one registration. -/
def baseRow (r : Registration) : Row :=
  [("Name", r.name), ("Email", r.email), ("Phone", r.phone.getD ""),
   ("Transaction ID", r.transactionId.getD ""),
   ("Registered At", toString r.createdAt),
   ("Booking Dates", String.intercalate ", " r.bookingDates),
   ("Total Price", numCell r.totalPrice)]
  ++ r.customFields

/-- One flattened CSV row for a selected ticket of a registration. -/
def ticketRow (base : Row) (t : SelTicket) : Row :=
  base ++ [("Ticket Type", t.ticketType.getD ""),
           ("Ticket Quantity", numCell t.quantity),
           ("Ticket Price", numCell t.ticketPrice)]

/-- One flattened CSV row for a registration without ticket detail. -/
def plainRow (base : Row) : Row :=
  base ++ [("Ticket Type", ""), ("Ticket Quantity", ""), ("Ticket Price", "")]

/-- The flattenedData rows of the export loop: one row per selected ticket for
a cultural event registration that has any, one row per registration
otherwise. -/
def flattenRegistrations (eventType : String) (regs : List Registration) :
    List Row :=
  regs.flatMap (fun r =>
    if eventType == "culturalEvent" && !r.selectedTickets.isEmpty then
      r.selectedTickets.map (ticketRow (baseRow r))
    else [plainRow (baseRow r)])

/-- The CSV export handler GET /api/users/export-registrations/:eventId of
minimal-server.js: find the event, authorize the owner or an admin, answer 404
when the event has no registrations, and otherwise return the header list and
the flattened rows (the json2csv serialisation itself is out of scope). -/
def exportRegistrations (uid : Nat) (isAdmin : Bool) (db : List Post)
    (regs : List Registration) (eventId : Nat) :
    Except HErr (List String × List Row) :=
  match db.find? (fun p => p.id == eventId) with
  | none => .error (.notFound "Event not found.")
  | some event =>
    if event.userId ≠ uid ∧ ¬ isAdmin then
      .error (.forbidden "Not authorized to export this data.")
    else
      let eventRegs := regs.filter (fun r => r.eventId == eventId)
      if eventRegs.isEmpty then
        .error (.notFound "No registrations found for this event.")
      else
        .ok (buildHeaders eventRegs, flattenRegistrations event.type eventRegs)

/-- The document collections touched by post deletion. -/
structure AppState where
  posts : List Post
  regs : List Registration
  notifs : List Notification
deriving DecidableEq, Repr, Inhabited

/-- The delete handler DELETE /api/posts/:id of postRoutes.js: authorized for
the author or an admin; deletes the post, and for an event or cultural event
also every Registration whose eventId references it. Cloudinary cleanup is
best-effort and out of scope. Notifications are not touched by this route. -/
def deletePost (uid : Nat) (isAdmin : Bool) (postId : Nat) (st : AppState) :
    Except HErr AppState :=
  match st.posts.find? (fun p => p.id == postId) with
  | none => .error (.notFound "Post not found")
  | some post =>
    if post.userId ≠ uid ∧ ¬ isAdmin then
      .error (.forbidden "You are not authorized to delete this post")
    else
      .ok { posts := st.posts.filter (fun p => p.id != postId),
            regs :=
              if post.type == "event" || post.type == "culturalEvent" then
                st.regs.filter (fun r => r.eventId != postId)
              else st.regs,
            notifs := st.notifs }

/-- The admin delete handler DELETE /api/users/admin/delete-post/:id of
minimal-server.js (admin middleware assumed passed): deletes the post, every
Notification whose postId references it and every Registration whose eventId
references it. -/
def adminDeletePost (postId : Nat) (st : AppState) : Except HErr AppState :=
  match st.posts.find? (fun p => p.id == postId) with
  | none => .error (.notFound "Post not found")
  | some _ =>
    .ok { posts := st.posts.filter (fun p => p.id != postId),
          regs := st.regs.filter (fun r => r.eventId != postId),
          notifs := st.notifs.filter (fun n => n.postId != some postId) }

/-- Admin resolution of GET /api/posts: a bearer token that verifies to a user
id whose user document has isAdmin. decodedId is none when the header is
missing or the token is invalid or expired. -/
def resolveAdmin (decodedId : Option Nat) (users : List UserRec) : Bool :=
  match decodedId with
  | some uid =>
    match users.find? (fun u => u.id == uid) with
    | some u => u.isAdmin
    | none => false
  | none => false

/-- The response shape of GET /api/posts for one post:
transformShowcasePostForFrontend exposes the showcase comment list and its
count under the generic comment keys for showcase posts and returns other
posts unchanged. -/
structure PostResponse where
  post : Post
  commentsAlias : Option (List ShowcaseComment)
  commentCountAlias : Option Int
deriving DecidableEq, Repr

def transformShowcasePostForFrontend (p : Post) : PostResponse :=
  if p.type == "showcase" then
    { post := p, commentsAlias := some p.showcaseComments,
      commentCountAlias :=
        some (if p.commentCount != 0 then p.commentCount
              else (p.showcaseComments.length : Int)) }
  else
    { post := p, commentsAlias := none, commentCountAlias := none }

/-- Insertion step of the timestamp-descending sort of GET /api/posts. -/
def insertByTs (p : Post) : List Post → List Post
  | [] => [p]
  | q :: qs =>
    if q.timestamp ≤ p.timestamp then p :: q :: qs else q :: insertByTs p qs

/-- The sort({ timestamp: -1 }) of GET /api/posts. -/
def sortByTimestampDesc (l : List Post) : List Post :=
  l.foldr insertByTs []

/-- The list handler GET /api/posts of postRoutes.js: an admin sees every
post, every other caller only the approved ones; results are sorted by
timestamp descending and mapped through the frontend transform (population of
upvoters and comment authors is a read-side join and out of scope). -/
def getPosts (decodedId : Option Nat) (users : List UserRec)
    (db : List Post) : List PostResponse :=
  let isAdmin := resolveAdmin decodedId users
  let posts :=
    if isAdmin then sortByTimestampDesc db
    else sortByTimestampDesc (db.filter (fun p => p.status == "approved"))
  posts.map transformShowcasePostForFrontend

/-- One engagement operation against a stored post, as exercised by the
like, unlike, upvote toggle and showcase comment handlers and the showcase
document methods. -/
inductive EngageOp where
  | like (uid : Nat)
  | unlike (uid : Nat)
  | upvote (uid : Nat) (userName : String) (nid now : Nat)
  | scAdd (uid : Nat) (userName userAvatar : String) (now cid : Nat) (text : String)
  | scRemove (cid : Nat)
  | addUpv (uid : Nat)
  | removeUpv (uid : Nat)
deriving Repr

/-- Apply one engagement operation; a handler error writes nothing, so the
post is unchanged in that case. -/
def applyEngage (p : Post) (op : EngageOp) : Post :=
  match op with
  | .like uid =>
    match likePost uid p with
    | .ok q => q
    | .error _ => p
  | .unlike uid =>
    match unlikePost uid p with
    | .ok q => q
    | .error _ => p
  | .upvote uid nm nid now =>
    match upvotePost uid nm nid now p with
    | .ok q => q
    | .error _ => p
  | .scAdd uid nm av now cid t =>
    match addShowcaseCommentRoute uid nm av now cid t p with
    | .ok q => q
    | .error _ => p
  | .scRemove cid => removeShowcaseComment p cid
  | .addUpv uid => addUpvote p uid
  | .removeUpv uid => removeUpvote p uid

/-- The engagement counters of a post are all nonnegative. -/
def countersNonneg (p : Post) : Prop :=
  0 ≤ p.likes ∧ 0 ≤ p.upvotes ∧ 0 ≤ p.commentCount

instance (p : Post) : Decidable (countersNonneg p) := by
  unfold countersNonneg
  infer_instance

/-- Cultural-event-specific fields are all absent. -/
def culturalFieldsCleared (p : Post) : Bool :=
  p.ticketOptions.isNone && p.culturalPaymentMethod.isNone &&
  p.culturalPaymentLink.isNone && p.culturalPaymentQRCode.isNone &&
  p.availableDates.isNone

/-- Cultural-event-specific fields other than ticketOptions are absent (the
update cleanup for an event post does not touch ticketOptions). -/
def culturalFieldsClearedNoTickets (p : Post) : Bool :=
  p.culturalPaymentMethod.isNone && p.culturalPaymentLink.isNone &&
  p.culturalPaymentQRCode.isNone && p.availableDates.isNone

/-- The event-only price and payment fields stripped for a cultural event. -/
def eventPaymentCleared (p : Post) : Bool :=
  p.price.isNone && p.paymentMethod.isNone && p.paymentLink.isNone &&
  p.paymentQRCode.isNone

/-- The full event and cultural-event field list stripped for showcase and
regular posts by both write handlers. -/
def regularFieldsCleared (p : Post) : Bool :=
  p.location.isNone && p.eventStartDate.isNone && p.eventEndDate.isNone &&
  p.price.isNone && p.language.isNone && p.duration.isNone &&
  p.registrationLink.isNone && p.registrationOpen.isNone &&
  p.enableRegistrationForm.isNone && p.registrationFields.isNone &&
  p.paymentMethod.isNone && p.paymentLink.isNone && p.paymentQRCode.isNone &&
  p.source.isNone && p.ticketOptions.isNone && p.culturalPaymentMethod.isNone &&
  p.culturalPaymentLink.isNone && p.culturalPaymentQRCode.isNone &&
  p.availableDates.isNone

/-- Follows the words of the spec, for comparison with the code: every field
belonging to variants other than the post type is absent. Field ownership per
spec section 3: the event family (location, dates, price, language, duration,
tickets needed, venue, registration and payment configuration, source), the
cultural-event additions (ticket options, cultural payment configuration,
available dates) and the showcase additions (description, website, logo,
banner, month, launch date, upvoters, showcase comments). -/
def specEventFamilyAbsent (p : Post) : Bool :=
  p.location.isNone && p.eventStartDate.isNone && p.eventEndDate.isNone &&
  p.price.isNone && p.language.isNone && p.duration.isNone &&
  p.ticketsNeeded.isNone && p.venueAddress.isNone &&
  p.registrationLink.isNone && p.registrationOpen.isNone &&
  p.enableRegistrationForm.isNone && p.registrationFields.isNone &&
  p.paymentMethod.isNone && p.paymentLink.isNone && p.paymentQRCode.isNone &&
  p.source.isNone

def specCulturalOnlyAbsent (p : Post) : Bool :=
  p.ticketOptions.isNone && p.culturalPaymentMethod.isNone &&
  p.culturalPaymentLink.isNone && p.culturalPaymentQRCode.isNone &&
  p.availableDates.isNone

def specEventOnlyAbsent (p : Post) : Bool :=
  p.paymentMethod.isNone && p.paymentLink.isNone && p.paymentQRCode.isNone

def specShowcaseAbsent (p : Post) : Bool :=
  p.description.isNone && p.fullDescription.isNone && p.websiteLink.isNone &&
  p.logoUrl.isNone && p.bannerUrl.isNone && p.month.isNone &&
  p.launchedDate.isNone && p.upvoters.isEmpty && p.showcaseComments.isEmpty

def specVariantFieldsAbsent (p : Post) : Bool :=
  if p.type == "event" then
    specCulturalOnlyAbsent p && specShowcaseAbsent p
  else if p.type == "culturalEvent" then
    specEventOnlyAbsent p && specShowcaseAbsent p
  else if p.type == "showcase" then
    specEventFamilyAbsent p && specCulturalOnlyAbsent p
  else
    specEventFamilyAbsent p && specCulturalOnlyAbsent p && specShowcaseAbsent p

/-- Follows the words of the spec, for comparison with the code: the number of
(registration, selected ticket) pairs across a registration list. -/
def ticketPairCount (regs : List Registration) : Nat :=
  (regs.map (fun r => r.selectedTickets.length)).sum

/-
  Shared helper lemmas.
-/

theorem filter_bne_eq_self {u : Nat} {l : List Nat} (h : u ∉ l) :
    l.filter (fun x => x != u) = l := by
  induction l with
  | nil => rfl
  | cons a as ih =>
    rw [List.mem_cons, not_or] at h
    have ha : (a != u) = true := by
      rw [bne_iff_ne]
      exact fun e => h.1 e.symm
    simp [List.filter_cons, ha, ih h.2]

theorem filter_bne_append {u : Nat} {l : List Nat} (h : u ∉ l) :
    (l ++ [u]).filter (fun x => x != u) = l := by
  rw [List.filter_append, filter_bne_eq_self h]
  simp

theorem mem_insertByTs {x p : Post} {l : List Post} :
    x ∈ insertByTs p l ↔ x = p ∨ x ∈ l := by
  induction l with
  | nil => simp [insertByTs]
  | cons q qs ih =>
    unfold insertByTs
    split
    · simp
    · rw [List.mem_cons, ih, List.mem_cons]
      tauto

theorem mem_sortByTimestampDesc {x : Post} {l : List Post} :
    x ∈ sortByTimestampDesc l ↔ x ∈ l := by
  unfold sortByTimestampDesc
  induction l with
  | nil => simp
  | cons q qs ih =>
    rw [List.foldr_cons, mem_insertByTs, ih, List.mem_cons]

/-- Inversion for the create handler: a successful create stores exactly the
document built by buildNewPostData, schema-validated and passed through the
pre save hook. -/
theorem createPost_ok_eq {now uid : Nat} {nm av mo da : String} {nid : Nat}
    {body : Body} {p : Post}
    (h : createPost now uid nm av mo da nid body = .ok p) :
    p = preSaveShowcaseDefaults mo
          (buildNewPostData now uid nm av mo da nid (body.type.getD "") body) ∧
    postSchemaValid
        (buildNewPostData now uid nm av mo da nid (body.type.getD "") body)
      = true := by
  unfold createPost at h
  repeat' split at h
  all_goals simp_all

/-- Inversion for the update handler: a successful update stores exactly the
document built by updateApply, schema-validated and passed through the pre
save hook. -/
theorem updatePost_ok_eq {uid : Nat} {adm : Bool} {mo : String} {post : Post}
    {body : Body} {q : Post}
    (h : updatePost uid adm mo post body = .ok q) :
    q = preSaveShowcaseDefaults mo (updateApply adm post body) ∧
    postSchemaValid (updateApply adm post body) = true := by
  unfold updatePost at h
  repeat' split at h
  all_goals simp_all

theorem preSaveShowcaseDefaults_type (mo : String) (p : Post) :
    (preSaveShowcaseDefaults mo p).type = p.type := by
  unfold preSaveShowcaseDefaults
  split <;> rfl

/-- The pre save hook touches only showcase posts, so the month of any other
post is stored exactly as the write path left it. -/
theorem preSaveShowcaseDefaults_month_of_ne (mo : String) (p : Post)
    (h : p.type ≠ "showcase") :
    (preSaveShowcaseDefaults mo p).month = p.month := by
  unfold preSaveShowcaseDefaults
  split
  · rename_i hcond
    rw [beq_iff_eq] at hcond
    exact absurd hcond h
  · rfl

theorem preSave_culturalFieldsCleared (mo : String) (p : Post) :
    culturalFieldsCleared (preSaveShowcaseDefaults mo p)
      = culturalFieldsCleared p := by
  unfold preSaveShowcaseDefaults culturalFieldsCleared
  split <;> rfl

theorem preSave_culturalFieldsClearedNoTickets (mo : String) (p : Post) :
    culturalFieldsClearedNoTickets (preSaveShowcaseDefaults mo p)
      = culturalFieldsClearedNoTickets p := by
  unfold preSaveShowcaseDefaults culturalFieldsClearedNoTickets
  split <;> rfl

theorem preSave_eventPaymentCleared (mo : String) (p : Post) :
    eventPaymentCleared (preSaveShowcaseDefaults mo p)
      = eventPaymentCleared p := by
  unfold preSaveShowcaseDefaults eventPaymentCleared
  split <;> rfl

theorem preSave_regularFieldsCleared (mo : String) (p : Post) :
    regularFieldsCleared (preSaveShowcaseDefaults mo p)
      = regularFieldsCleared p := by
  unfold preSaveShowcaseDefaults regularFieldsCleared
  split <;> rfl

theorem preSave_ticketOptions (mo : String) (p : Post) :
    (preSaveShowcaseDefaults mo p).ticketOptions = p.ticketOptions := by
  unfold preSaveShowcaseDefaults
  split <;> rfl

theorem preSave_availableDates (mo : String) (p : Post) :
    (preSaveShowcaseDefaults mo p).availableDates = p.availableDates := by
  unfold preSaveShowcaseDefaults
  split <;> rfl

/-- Field cleanup facts of the create write path, by post type. -/
theorem buildNewPostData_cleanup (now uid : Nat) (nm av mo da : String)
    (nid : Nat) (ty : String) (body : Body) :
    (buildNewPostData now uid nm av mo da nid ty body).type = ty ∧
    (ty = "event" →
      culturalFieldsCleared (buildNewPostData now uid nm av mo da nid ty body) = true) ∧
    (ty = "culturalEvent" →
      eventPaymentCleared (buildNewPostData now uid nm av mo da nid ty body) = true) ∧
    ((ty = "showcase" ∨ ty = "confession" ∨ ty = "news") →
      regularFieldsCleared (buildNewPostData now uid nm av mo da nid ty body) = true) ∧
    (ty ≠ "showcase" →
      (buildNewPostData now uid nm av mo da nid ty body).month = body.month) := by
  unfold buildNewPostData
  by_cases h1 : ty = "event"
  · subst h1
    simp [culturalFieldsCleared]
  · by_cases h2 : ty = "culturalEvent"
    · subst h2
      simp [eventPaymentCleared]
    · by_cases h3 : ty = "showcase"
      · subst h3
        simp [regularFieldsCleared]
      · simp [beq_iff_eq, h1, h2, h3, regularFieldsCleared]

theorem updateTypeCleanup_type (p : Post) :
    (updateTypeCleanup p).type = p.type := by
  unfold updateTypeCleanup
  repeat' split
  all_goals rfl

theorem updateTypeCleanup_month (p : Post) :
    (updateTypeCleanup p).month = p.month := by
  unfold updateTypeCleanup
  repeat' split
  all_goals rfl

/-- Field cleanup facts of the update write path, by the new post type. The
event branch of the update cleanup does not touch ticketOptions. -/
theorem updateTypeCleanup_cleanup (p : Post) :
    (p.type = "event" →
      culturalFieldsClearedNoTickets (updateTypeCleanup p) = true) ∧
    (p.type = "culturalEvent" →
      eventPaymentCleared (updateTypeCleanup p) = true) ∧
    ((p.type = "showcase" ∨ p.type = "confession" ∨ p.type = "news") →
      regularFieldsCleared (updateTypeCleanup p) = true) := by
  unfold updateTypeCleanup
  by_cases h1 : p.type = "event"
  · simp [beq_iff_eq, h1, culturalFieldsClearedNoTickets]
  · by_cases h2 : p.type = "culturalEvent"
    · simp [beq_iff_eq, h1, h2, eventPaymentCleared]
    · by_cases h3 : p.type = "showcase"
      · simp [beq_iff_eq, h1, h2, h3, regularFieldsCleared]
      · simp [beq_iff_eq, h1, h2, h3, regularFieldsCleared]

/-- The update write path stores the month field exactly as the rest spread
left it: no cleanup branch ever strips this showcase-specific field. -/
theorem updateApply_month (adm : Bool) (post : Post) (body : Body) :
    (updateApply adm post body).month = updOptField body.month post.month := by
  unfold updateApply
  rw [updateTypeCleanup_month]
  unfold updateQrOverlay updateAdminStatus updateSetFields updateImages
  repeat' split
  all_goals rfl

/-
  C1. Claim: every field belonging to variants other than the saved type is
  absent in the stored document.
-/

def c1Body : Body :=
  { Body.empty with
    type := some "confession", title := some "T", content := some "C",
    month := some "October 2025" }

/-- C1 counterexample: creating a confession post whose payload carries the
showcase-specific month field succeeds and stores month, so the stored
document violates the claimed absence of fields of other variants (the
spec-side predicate specVariantFieldsAbsent evaluates to false on the stored
document). -/
theorem c1_counterexample :
    (createPost 0 7 "alice" "av" "M" "D" 1 c1Body).map specVariantFieldsAbsent
        = .ok false ∧
    (createPost 0 7 "alice" "av" "M" "D" 1 c1Body).map Post.month
        = .ok (some "October 2025") := by
  constructor <;> decide

/-- C1 amended: both write handlers strip the event-family and cultural-event
fields that do not belong to the saved type (for an update to type event,
ticketOptions excepted), but showcase-specific fields are never stripped from
non-showcase posts: for every post stored with a type other than showcase the
month field is exactly the one the payload left (for showcase posts the pre
save hook instead defaults a falsy month to the locale month). -/
theorem c1_amended (now uid : Nat) (nm av mo da : String) (nid : Nat)
    (body : Body) (p : Post) (uid2 : Nat) (adm : Bool) (mo2 : String)
    (q0 : Post) (body2 : Body) (q : Post)
    (hc : createPost now uid nm av mo da nid body = .ok p)
    (hu : updatePost uid2 adm mo2 q0 body2 = .ok q) :
    ((p.type = "event" → culturalFieldsCleared p = true) ∧
     (p.type = "culturalEvent" → eventPaymentCleared p = true) ∧
     ((p.type = "showcase" ∨ p.type = "confession" ∨ p.type = "news") →
        regularFieldsCleared p = true) ∧
     (p.type ≠ "showcase" → p.month = body.month)) ∧
    ((q.type = "event" → culturalFieldsClearedNoTickets q = true) ∧
     (q.type = "culturalEvent" → eventPaymentCleared q = true) ∧
     ((q.type = "showcase" ∨ q.type = "confession" ∨ q.type = "news") →
        regularFieldsCleared q = true) ∧
     (q.type ≠ "showcase" → q.month = updOptField body2.month q0.month)) := by
  obtain ⟨hp, -⟩ := createPost_ok_eq hc
  obtain ⟨hq, -⟩ := updatePost_ok_eq hu
  subst hp
  subst hq
  constructor
  · obtain ⟨hty, h1, h2, h3, h4⟩ :=
      buildNewPostData_cleanup now uid nm av mo da nid (body.type.getD "") body
    rw [preSaveShowcaseDefaults_type, hty]
    refine ⟨?_, ?_, ?_, ?_⟩
    · intro he
      rw [preSave_culturalFieldsCleared]
      exact h1 he
    · intro he
      rw [preSave_eventPaymentCleared]
      exact h2 he
    · intro he
      rw [preSave_regularFieldsCleared]
      exact h3 he
    · intro hne
      rw [preSaveShowcaseDefaults_month_of_ne mo _ (by rw [hty]; exact hne)]
      exact h4 hne
  · rw [preSaveShowcaseDefaults_type]
    refine ⟨?_, ?_, ?_, ?_⟩
    · intro he
      rw [preSave_culturalFieldsClearedNoTickets]
      unfold updateApply at he ⊢
      rw [updateTypeCleanup_type] at he
      exact (updateTypeCleanup_cleanup _).1 he
    · intro he
      rw [preSave_eventPaymentCleared]
      unfold updateApply at he ⊢
      rw [updateTypeCleanup_type] at he
      exact (updateTypeCleanup_cleanup _).2.1 he
    · intro he
      rw [preSave_regularFieldsCleared]
      unfold updateApply at he ⊢
      rw [updateTypeCleanup_type] at he
      exact (updateTypeCleanup_cleanup _).2.2 he
    · intro hne
      rw [preSaveShowcaseDefaults_month_of_ne mo2 _ hne]
      exact updateApply_month adm q0 body2

/-
  C6. Claim: a culturalEvent create with ticketOptions but no availableDates
  is rejected; with one date it succeeds storing one date.
-/

theorem validateText_not_falsy {t : Option String} {lo hi : Nat}
    (h : validateText t lo hi = true) : isFalsyStr t = false := by
  cases t with
  | none => exact absurd h (by simp [validateText])
  | some s =>
    unfold validateText at h
    unfold isFalsyStr
    rw [Bool.and_eq_true, Bool.and_eq_true] at h
    exact (Bool.not_eq_true' _).mp h.1.1

def c6Body : Body :=
  { Body.empty with
    type := some "culturalEvent", title := some "Cultural Fest",
    content := some "A cultural event",
    ticketOptions := some [{ ticketType := "General", ticketPrice := 100 }] }

/-- C6 counterexample: the create handler accepts a culturalEvent payload
with ticketOptions and no availableDates (no required-field check on ticket
options or available dates exists in the handler or the schema); the claimed
rejection does not happen and the stored document has no available dates. -/
theorem c6_counterexample :
    ((createPost 0 3 "bob" "av" "M" "D" 9 c6Body).toOption.isSome = true) ∧
    (createPost 0 3 "bob" "av" "M" "D" 9 c6Body).map
        (fun p => (p.ticketOptions, p.availableDates))
      = .ok (some [{ ticketType := "General", ticketPrice := 100 }], none) := by
  constructor <;> decide

/-- C6 amended: a culturalEvent creation passing the generic type, title and
content checks and whose constructed document satisfies the Post schema
succeeds, storing ticketOptions and availableDates exactly as supplied: the
absence of available dates is never itself a reason for rejection (they are
stored absent; the schema array default makes them an empty list), and
supplying one date stores that single date. -/
theorem c6_amended (now uid : Nat) (nm av mo da : String) (nid : Nat)
    (body : Body) (hty : body.type = some "culturalEvent")
    (htitle : validateText body.title 1 100 = true)
    (hcontent : validateText body.content 1 1000 = true)
    (hvalid : postSchemaValid (buildNewPostData now uid nm av mo da nid
        "culturalEvent" body) = true) :
    (createPost now uid nm av mo da nid body).map
        (fun p => (p.ticketOptions, p.availableDates))
      = .ok (body.ticketOptions, body.availableDates) := by
  have h1 := validateText_not_falsy htitle
  have h2 := validateText_not_falsy hcontent
  have h0 : isFalsyStr (some "culturalEvent") = false := by decide
  have hvt : validatePostType "culturalEvent" = true := by decide
  have hbe : ((some "culturalEvent" : Option String) == some "showcase") = false := by
    decide
  unfold createPost
  rw [hty]
  simp only [Option.getD_some]
  simp [h0, h1, h2, htitle, hcontent, hvt, hbe, hvalid, Except.map,
    preSave_ticketOptions, preSave_availableDates]
  constructor <;> simp [buildNewPostData]

/-- Witness for c6_amended: a concrete culturalEvent creation with one
available date stores availableDates of length one. -/
def c6BodyOneDate : Body :=
  { c6Body with availableDates := some ["2025-11-01"] }

theorem c6_amended_witness :
    (createPost 0 3 "bob" "av" "M" "D" 9 c6BodyOneDate).map
        (fun p => (p.ticketOptions, p.availableDates))
      = .ok (c6BodyOneDate.ticketOptions, c6BodyOneDate.availableDates) :=
  c6_amended 0 3 "bob" "av" "M" "D" 9 c6BodyOneDate (by decide) (by decide)
    (by decide) (by decide)

/-
  C8. Claim: showcase creation is rejected after the fixed submission cutoff
  and is not blocked by this rule before it.
-/

/-- C8: a showcase creation passing the generic checks is rejected with the
deadline 400 exactly when the request time is past SUBMISSION_DEADLINE (and
since the result is an error, no Post document is created), while at or
before the cutoff the deadline rule never blocks the creation: the result is
never the deadline rejection (any remaining failure can only come from the
schema validation of the payload itself). -/
theorem c8_showcase_deadline (now uid : Nat) (nm av mo da : String)
    (nid : Nat) (body : Body) (hty : body.type = some "showcase")
    (htitle : validateText body.title 1 100 = true)
    (hcontent : validateText body.content 1 1000 = true) :
    (SUBMISSION_DEADLINE < now →
      (createPost now uid nm av mo da nid body).toOption.isSome = false) ∧
    (SUBMISSION_DEADLINE < now →
      createPost now uid nm av mo da nid body =
        .error (.badRequest "Submissions are closed for Startup Showcase. The deadline was October 31, 2025.")) ∧
    (¬ SUBMISSION_DEADLINE < now →
      createPost now uid nm av mo da nid body ≠
        .error (.badRequest "Submissions are closed for Startup Showcase. The deadline was October 31, 2025.")) := by
  have h1 := validateText_not_falsy htitle
  have h2 := validateText_not_falsy hcontent
  have h0 : isFalsyStr (some "showcase") = false := by decide
  have hdead : SUBMISSION_DEADLINE < now →
      createPost now uid nm av mo da nid body =
        .error (.badRequest "Submissions are closed for Startup Showcase. The deadline was October 31, 2025.") := by
    intro hlt
    unfold createPost
    rw [hty]
    simp [h0, h1, h2, htitle, hcontent, validatePostType, validPostTypes, hlt]
  refine ⟨fun hlt => by rw [hdead hlt]; rfl, hdead, fun hge hcon => ?_⟩
  unfold createPost at hcon
  rw [hty] at hcon
  repeat' split at hcon
  all_goals simp_all
  all_goals omega

def c8Body : Body :=
  { Body.empty with
    type := some "showcase", title := some "My Startup",
    content := some "An idea" }

theorem c8_showcase_deadline_witness :
    (createPost 1761955199001 4 "u" "av" "M" "D" 2 c8Body =
      .error (.badRequest "Submissions are closed for Startup Showcase. The deadline was October 31, 2025.")) ∧
    (createPost 1761955199000 4 "u" "av" "M" "D" 2 c8Body ≠
      .error (.badRequest "Submissions are closed for Startup Showcase. The deadline was October 31, 2025.")) :=
  ⟨(c8_showcase_deadline 1761955199001 4 "u" "av" "M" "D" 2 c8Body (by decide)
      (by decide) (by decide)).2.1 (by decide),
   (c8_showcase_deadline 1761955199000 4 "u" "av" "M" "D" 2 c8Body (by decide)
      (by decide) (by decide)).2.2 (by decide)⟩

/-
  C7. Claim: a double like and an upvote of an own showcase post are each
  rejected with a client error and leave the counters untouched.
-/

/-- C7: liking a post the acting user already likes answers a 400, and
upvoting a showcase post the acting user owns answers a 400. In both cases
the handler returns before any write, so likes, likedBy, upvotes and upvoters
are unchanged. -/
theorem c7_guards (uid : Nat) (nm : String) (nid now : Nat) (p q : Post)
    (hlike : p.likedBy.contains uid = true)
    (hty : q.type = "showcase") (hown : q.userId = uid) :
    likePost uid p = .error (.badRequest "You have already liked this post") ∧
    upvotePost uid nm nid now q =
      .error (.badRequest "You cannot upvote your own post") := by
  constructor
  · have hm : uid ∈ p.likedBy := List.mem_of_elem_eq_true hlike
    unfold likePost
    simp [hm]
  · unfold upvotePost
    rw [hty, hown]
    simp

def c7LikedPost : Post :=
  { (default : Post) with id := 1, type := "confession", likedBy := [5] }

def c7OwnShowcase : Post :=
  { (default : Post) with id := 2, type := "showcase", userId := 5 }

theorem c7_guards_witness :
    likePost 5 c7LikedPost =
      .error (.badRequest "You have already liked this post") ∧
    upvotePost 5 "eve" 9 0 c7OwnShowcase =
      .error (.badRequest "You cannot upvote your own post") :=
  c7_guards 5 "eve" 9 0 c7LikedPost c7OwnShowcase (by decide) (by decide)
    (by decide)

/-
  C2. Claim: the upvote toggle adds exactly one upvote for a non-owner not yet
  in upvoters, and the repeated call removes exactly that upvote, restoring
  the prior count and upvoter set.
-/

/-- C2: for a showcase post, a non-owner user not in upvoters and a
nonnegative stored count (the schema enforces min 0 on upvotes), one call
increments upvotes by exactly one and appends the user to upvoters, and a
second call restores the original count and upvoter list exactly. -/
theorem c2_upvote_toggle (uid : Nat) (nm nm2 : String) (nid1 now1 nid2 now2 : Nat)
    (p : Post) (hty : p.type = "showcase") (hown : p.userId ≠ uid)
    (hmem : uid ∉ p.upvoters) (hnn : 0 ≤ p.upvotes) :
    ((upvotePost uid nm nid1 now1 p).map (fun r => (r.upvotes, r.upvoters))
        = .ok (p.upvotes + 1, p.upvoters ++ [uid])) ∧
    (((upvotePost uid nm nid1 now1 p).bind
        (fun r => upvotePost uid nm2 nid2 now2 r)).map
          (fun r => (r.upvotes, r.upvoters)) = .ok (p.upvotes, p.upvoters)) := by
  have hne : (p.userId == uid) = false := by
    rw [beq_eq_false_iff_ne]
    exact hown
  have hany : (p.upvoters.any fun x => x == uid) = false := by
    rw [Bool.eq_false_iff]
    intro hcon
    rw [List.any_eq_true] at hcon
    obtain ⟨x, hx, he⟩ := hcon
    rw [beq_iff_eq] at he
    subst he
    exact hmem hx
  constructor
  · unfold upvotePost
    rw [hty]
    simp [hne, hany, Except.map]
  · unfold upvotePost
    rw [hty]
    simp only [hne, hany, bne_self_eq_false, Bool.false_eq_true, if_false,
      Bool.if_false_left, Except.bind, Except.map, List.any_append,
      List.any_cons, List.any_nil, beq_self_eq_true, Bool.or_true,
      Bool.true_and, Bool.not_false, if_true]
    rw [filter_bne_append hmem]
    simp [max_eq_right hnn]

def c2Showcase : Post :=
  { (default : Post) with
    id := 3
    type := "showcase"
    userId := 1
    upvotes := 2
    upvoters := [8, 9] }

theorem c2_upvote_toggle_witness :
    ((upvotePost 4 "ann" 100 50 c2Showcase).map
        (fun r => (r.upvotes, r.upvoters))
      = .ok (c2Showcase.upvotes + 1, c2Showcase.upvoters ++ [4])) ∧
    (((upvotePost 4 "ann" 100 50 c2Showcase).bind
        (fun r => upvotePost 4 "ann" 101 51 r)).map
          (fun r => (r.upvotes, r.upvoters))
      = .ok (c2Showcase.upvotes, c2Showcase.upvoters)) :=
  c2_upvote_toggle 4 "ann" "ann" 100 50 101 51 c2Showcase (by decide)
    (by decide) (by decide) (by decide)

/-
  C9. Claim: the likes, upvotes and commentCount counters never become
  negative under any sequence of engagement operations.
-/

theorem applyEngage_nonneg (p : Post) (op : EngageOp) (h : countersNonneg p) :
    countersNonneg (applyEngage p op) := by
  obtain ⟨h1, h2, h3⟩ := h
  cases op with
  | like uid =>
    simp only [applyEngage]
    cases hres : likePost uid p with
    | error e => exact ⟨h1, h2, h3⟩
    | ok q =>
      unfold likePost at hres
      split at hres
      · simp at hres
      · simp only [Except.ok.injEq] at hres
        subst hres
        exact ⟨add_nonneg h1 zero_le_one, h2, h3⟩
  | unlike uid =>
    simp only [applyEngage]
    cases hres : unlikePost uid p with
    | error e => exact ⟨h1, h2, h3⟩
    | ok q =>
      unfold unlikePost at hres
      split at hres
      · simp at hres
      · simp only [Except.ok.injEq] at hres
        subst hres
        refine ⟨?_, h2, h3⟩
        show 0 ≤ if 0 < p.likes then p.likes - 1 else p.likes
        split <;> omega
  | upvote uid nm nid now =>
    simp only [applyEngage]
    cases hres : upvotePost uid nm nid now p with
    | error e => exact ⟨h1, h2, h3⟩
    | ok r =>
      unfold upvotePost at hres
      split at hres
      · simp at hres
      · split at hres
        · simp at hres
        · split at hres
          · simp only [Except.ok.injEq] at hres
            subst hres
            exact ⟨h1, le_max_left 0 _, h3⟩
          · simp only [Except.ok.injEq] at hres
            subst hres
            exact ⟨h1, add_nonneg h2 zero_le_one, h3⟩
  | scAdd uid nm av now cid t =>
    simp only [applyEngage]
    cases hres : addShowcaseCommentRoute uid nm av now cid t p with
    | error e => exact ⟨h1, h2, h3⟩
    | ok q =>
      unfold addShowcaseCommentRoute at hres
      split at hres
      · simp at hres
      · split at hres
        · simp at hres
        · simp only [Except.ok.injEq] at hres
          subst hres
          exact ⟨h1, h2, Int.natCast_nonneg _⟩
  | scRemove cid =>
    simp only [applyEngage]
    unfold removeShowcaseComment
    split
    · exact ⟨h1, h2, le_max_left 0 _⟩
    · exact ⟨h1, h2, h3⟩
  | addUpv uid =>
    simp only [applyEngage]
    unfold addUpvote
    split
    · exact ⟨h1, add_nonneg h2 zero_le_one, h3⟩
    · exact ⟨h1, h2, h3⟩
  | removeUpv uid =>
    simp only [applyEngage]
    unfold removeUpvote
    split
    · exact ⟨h1, le_max_left 0 _, h3⟩
    · exact ⟨h1, h2, h3⟩

/-- C9: starting from a post whose likes, upvotes and commentCount are
nonnegative, applying any sequence of engagement operations (like, unlike,
upvote toggle, showcase comment add and remove, and the showcase document
methods) keeps all three counters nonnegative: every decrementing path either
guards on the counter being positive or floors the result at zero. -/
theorem c9_counters_never_negative (ops : List EngageOp) (p : Post)
    (h : countersNonneg p) : countersNonneg (ops.foldl applyEngage p) := by
  induction ops generalizing p with
  | nil => exact h
  | cons op rest ih => exact ih _ (applyEngage_nonneg p op h)

def c9Post : Post :=
  { (default : Post) with
    id := 4
    type := "showcase"
    userId := 1
    title := "T" }

def c9Ops : List EngageOp :=
  [.like 2, .unlike 2, .unlike 2, .upvote 3 "u" 1 1, .upvote 3 "u" 2 2,
   .scAdd 3 "u" "av" 5 6 "hello", .scRemove 6, .scRemove 6, .removeUpv 9,
   .addUpv 9]

theorem c9_counters_never_negative_witness :
    countersNonneg (c9Ops.foldl applyEngage c9Post) :=
  c9_counters_never_negative c9Ops c9Post (by decide)

/-
  C3. Claim: registration for an (eventId, userId) pair succeeds at most
  once; a duplicate attempt is rejected with a 400 and writes nothing.
-/

/-- C3: when the event exists and a Registration for the same (eventId,
userId) pair is already present, the registration handler answers the 400
duplicate error; an error response performs no write, so the Registration
collection is unchanged. Together with the fact that a successful first
registration inserts exactly such a pair, registration succeeds at most once
per pair. -/
theorem c3_register_at_most_once (db : List Post) (regs : List Registration)
    (notifs : List Notification) (users : List UserRec) (uid : Nat)
    (nm : String) (eid : Nat) (body : RegBody) (a b c : Nat)
    (hev : (db.find? (fun p => p.id == eid)).isSome = true)
    (hdup : regs.any (fun r => r.eventId == eid && r.userId == uid) = true) :
    registerEvent db regs notifs users uid nm eid body a b c
      = .error (.badRequest "You are already registered for this event") := by
  obtain ⟨ev, hfind⟩ := Option.isSome_iff_exists.mp hev
  unfold registerEvent
  rw [hfind]
  simp [hdup]

/-- A successful registration makes the pair present, so an immediately
repeated attempt with the same pair is rejected (companion fact used by the
C3 witness setup). -/
theorem registerEvent_then_duplicate (db : List Post)
    (regs regs1 : List Registration) (notifs notifs1 : List Notification)
    (users : List UserRec) (uid : Nat) (nm nm2 : String) (eid : Nat)
    (body body2 : RegBody) (a b c a2 b2 c2 : Nat)
    (hok : registerEvent db regs notifs users uid nm eid body a b c
            = .ok (regs1, notifs1)) :
    registerEvent db regs1 notifs1 users uid nm2 eid body2 a2 b2 c2
      = .error (.badRequest "You are already registered for this event") := by
  unfold registerEvent at hok
  rcases hfind : db.find? (fun p => p.id == eid) with _ | ev
  · rw [hfind] at hok
    simp at hok
  · rw [hfind] at hok
    cases hdup0 : (regs.any fun r => r.eventId == eid && r.userId == uid) with
    | true =>
      rw [hdup0] at hok
      simp at hok
    | false =>
      rw [hdup0] at hok
      cases hem : (isFalsyStr body.name || isFalsyStr body.email) with
      | true =>
        rw [hem] at hok
        simp at hok
      | false =>
        rw [hem] at hok
        simp only [Bool.false_eq_true, if_false, Except.ok.injEq,
          Prod.mk.injEq] at hok
        obtain ⟨hr, hn⟩ := hok
        unfold registerEvent
        rw [hfind]
        have hdup : (regs1.any fun r => r.eventId == eid && r.userId == uid)
            = true := by
          rw [← hr]
          simp
        simp [hdup]

def c3Event : Post :=
  { (default : Post) with
    id := 11
    type := "event"
    userId := 2 }

def c3Reg : Registration :=
  { (default : Registration) with
    id := 21
    eventId := 11
    userId := 6 }

theorem c3_register_at_most_once_witness :
    registerEvent [c3Event] [c3Reg] [] [] 6 "finn" 11 RegBody.empty 22 31 99
      = .error (.badRequest "You are already registered for this event") :=
  c3_register_at_most_once [c3Event] [c3Reg] [] [] 6 "finn" 11 RegBody.empty
    22 31 99 (by decide) (by decide)

/-
  C5. Claim: deleting an event or cultural event post through
  DELETE /api/posts/:id removes the post, its registrations and every
  notification referencing it.
-/

def c5Event : Post :=
  { (default : Post) with
    id := 1
    type := "event"
    userId := 7 }

def c5State : AppState :=
  { posts := [c5Event]
    regs :=
      [{ (default : Registration) with id := 1, eventId := 1, userId := 11 },
       { (default : Registration) with id := 2, eventId := 1, userId := 12 },
       { (default : Registration) with id := 3, eventId := 1, userId := 13 }]
    notifs := [{ (default : Notification) with id := 1, postId := some 1 }] }

/-- C5 counterexample: the author deletes an event with three registrations
and one notification referencing it through DELETE /api/posts/:id; the post
and all three registrations are removed, but the notification survives, so
the claimed notification cascade does not happen on this route. -/
theorem c5_counterexample :
    (deletePost 7 false 1 c5State).map
        (fun st => (st.posts.length, st.regs.length, st.notifs.length))
      = .ok (0, 0, 1) := by decide

/-- C5 amended: DELETE /api/posts/:id (author or admin) removes the post and,
for an event or cultural event, every Registration referencing it, but leaves
the Notification collection untouched; the notification cascade exists only
on the separate admin route DELETE /api/users/admin/delete-post/:id, which
removes the post, its registrations and every notification whose postId
references it. -/
theorem c5_amended (uid : Nat) (adm : Bool) (pid : Nat) (st st1 st2 : AppState)
    (pt : Post)
    (hfind : st.posts.find? (fun p => p.id == pid) = some pt)
    (h1 : deletePost uid adm pid st = .ok st1)
    (h2 : adminDeletePost pid st = .ok st2) :
    (st1.posts = st.posts.filter (fun p => p.id != pid) ∧
     st1.regs = (if pt.type == "event" || pt.type == "culturalEvent"
                 then st.regs.filter (fun r => r.eventId != pid)
                 else st.regs) ∧
     st1.notifs = st.notifs) ∧
    (st2.posts = st.posts.filter (fun p => p.id != pid) ∧
     st2.regs = st.regs.filter (fun r => r.eventId != pid) ∧
     st2.notifs = st.notifs.filter (fun n => n.postId != some pid)) := by
  have hD : deletePost uid adm pid st =
      if pt.userId ≠ uid ∧ ¬ adm then
        .error (.forbidden "You are not authorized to delete this post")
      else
        .ok { posts := st.posts.filter (fun p => p.id != pid),
              regs := if pt.type == "event" || pt.type == "culturalEvent" then
                  st.regs.filter (fun r => r.eventId != pid)
                else st.regs,
              notifs := st.notifs } := by
    unfold deletePost
    rw [hfind]
  have hA : adminDeletePost pid st =
      .ok { posts := st.posts.filter (fun p => p.id != pid),
            regs := st.regs.filter (fun r => r.eventId != pid),
            notifs := st.notifs.filter (fun n => n.postId != some pid) } := by
    unfold adminDeletePost
    rw [hfind]
  rw [hD] at h1
  rw [hA] at h2
  split at h1
  · exact (Except.noConfusion h1)
  · simp only [Except.ok.injEq] at h1 h2
    subst h1
    subst h2
    exact ⟨⟨rfl, rfl, rfl⟩, ⟨rfl, rfl, rfl⟩⟩

theorem c5_amended_witness :
    (c5State.posts.find? (fun p => p.id == 1) = some c5Event) ∧
    ((deletePost 7 false 1 c5State).toOption.isSome = true) ∧
    ((adminDeletePost 1 c5State).toOption.isSome = true) := by
  refine ⟨by decide, ?_, ?_⟩
  · have h := c5_amended 7 false 1 c5State
      ((deletePost 7 false 1 c5State).toOption.getD default)
      ((adminDeletePost 1 c5State).toOption.getD default) c5Event
      (by decide) (by decide) (by decide)
    decide
  · have h := c5_amended 7 false 1 c5State
      ((deletePost 7 false 1 c5State).toOption.getD default)
      ((adminDeletePost 1 c5State).toOption.getD default) c5Event
      (by decide) (by decide) (by decide)
    decide

/-
  C10. Claim: a GET /api/posts request without a valid admin bearer token
  only ever receives posts whose status is approved.
-/

theorem transformShowcasePostForFrontend_post (p : Post) :
    (transformShowcasePostForFrontend p).post = p := by
  unfold transformShowcasePostForFrontend
  split <;> rfl

/-- C10: when the caller does not resolve to an admin user (missing header,
invalid or expired token, unknown user, or a non-admin user), every post in
the GET /api/posts response has status approved. -/
theorem c10_nonadmin_sees_only_approved (decodedId : Option Nat)
    (users : List UserRec) (db : List Post)
    (hadm : resolveAdmin decodedId users = false) :
    (getPosts decodedId users db).all
      (fun r => r.post.status == "approved") = true := by
  unfold getPosts
  rw [hadm]
  rw [List.all_eq_true]
  intro r hr
  simp only [Bool.false_eq_true, if_false, List.mem_map] at hr
  obtain ⟨q, hq, rfl⟩ := hr
  rw [mem_sortByTimestampDesc, List.mem_filter] at hq
  rw [transformShowcasePostForFrontend_post]
  exact hq.2

def c10Db : List Post :=
  [{ (default : Post) with id := 1, status := "approved", timestamp := 5 },
   { (default : Post) with id := 2, status := "pending", timestamp := 9 },
   { (default : Post) with id := 3, status := "rejected", timestamp := 1 }]

theorem c10_nonadmin_sees_only_approved_witness :
    (getPosts none [] c10Db).all
      (fun r => r.post.status == "approved") = true :=
  c10_nonadmin_sees_only_approved none [] c10Db (by decide)

/-
  C4. Claim: the CSV export has one data row per (registration, selected
  ticket) pair for cultural events and one per registration otherwise, and
  the header set is the fixed columns plus all observed custom-field names.
-/

theorem length_flattenRegistrations (ty : String) (regs : List Registration) :
    (flattenRegistrations ty regs).length =
      (regs.map (fun r =>
        if ty == "culturalEvent" && !r.selectedTickets.isEmpty
        then r.selectedTickets.length else 1)).sum := by
  unfold flattenRegistrations
  induction regs with
  | nil => rfl
  | cons r rs ih =>
    rw [List.flatMap_cons, List.length_append, ih, List.map_cons, List.sum_cons]
    congr 1
    split
    · rw [List.length_map]
    · rfl

theorem mem_addHeader {hs : List String} {k x : String} :
    x ∈ addHeader hs k ↔ x ∈ hs ∨ x = k := by
  unfold addHeader
  split
  · rename_i h
    constructor
    · exact Or.inl
    · rintro (hx | rfl)
      · exact hx
      · exact List.mem_of_elem_eq_true h
  · simp [List.mem_append]

theorem mem_foldl_addHeader (ks : List String) (hs : List String) (x : String) :
    x ∈ ks.foldl addHeader hs ↔ x ∈ hs ∨ x ∈ ks := by
  induction ks generalizing hs with
  | nil => simp
  | cons k ks ih =>
    rw [List.foldl_cons, ih, mem_addHeader, List.mem_cons]
    tauto

theorem mem_foldl_headers (regs : List Registration) (hs : List String)
    (x : String) :
    x ∈ regs.foldl (fun acc r => (regCustomKeys r).foldl addHeader acc) hs ↔
      x ∈ hs ∨ ∃ r ∈ regs, x ∈ regCustomKeys r := by
  induction regs generalizing hs with
  | nil => simp
  | cons r rs ih =>
    rw [List.foldl_cons, ih, mem_foldl_addHeader]
    constructor
    · rintro ((h | h) | h)
      · exact Or.inl h
      · exact Or.inr ⟨r, List.mem_cons_self r rs, h⟩
      · obtain ⟨r2, hr2, hx⟩ := h
        exact Or.inr ⟨r2, List.mem_cons_of_mem r hr2, hx⟩
    · rintro (h | ⟨r2, hr2, hx⟩)
      · exact Or.inl (Or.inl h)
      · rcases List.mem_cons.mp hr2 with rfl | h2
        · exact Or.inl (Or.inr hx)
        · exact Or.inr ⟨r2, h2, hx⟩

theorem mem_buildHeaders (regs : List Registration) (x : String) :
    x ∈ buildHeaders regs ↔
      x ∈ fixedHeaders ∨ ∃ r ∈ regs, x ∈ regCustomKeys r := by
  unfold buildHeaders
  exact mem_foldl_headers regs fixedHeaders x

def c4Event : Post :=
  { (default : Post) with
    id := 31
    type := "culturalEvent"
    userId := 5 }

def c4Regs : List Registration :=
  [{ (default : Registration) with id := 41, eventId := 31, userId := 8 }]

/-- C4 counterexample: a cultural event with one registration that selected no
tickets exports one data row, while the number of (registration, selected
ticket) pairs is zero, so the claimed equality of row count and pair count
fails for cultural events. -/
theorem c4_counterexample :
    ((exportRegistrations 5 false [c4Event] c4Regs 31).map
        (fun pr => pr.2.length) = .ok 1) ∧
    ticketPairCount c4Regs = 0 ∧ (1 : Nat) ≠ 0 := by
  refine ⟨by decide, by decide, by decide⟩

/-- C4 amended: for a cultural event the export produces, per registration,
one row per selected ticket when any were selected and one fallback row when
none were, so the row count is the sum of max(1, ticket selections); for any
other event type it is the registration count. The header list contains
exactly the fixed columns plus every custom-field name observed across the
registrations of the event. -/
theorem c4_amended (uid : Nat) (adm : Bool) (db : List Post)
    (regs : List Registration) (eid : Nat) (ev : Post) (hs : List String)
    (rows : List Row) (k : String)
    (hfind : db.find? (fun p => p.id == eid) = some ev)
    (hok : exportRegistrations uid adm db regs eid = .ok (hs, rows)) :
    rows.length =
      ((regs.filter (fun r => r.eventId == eid)).map (fun r =>
        if ev.type == "culturalEvent" && !r.selectedTickets.isEmpty
        then r.selectedTickets.length else 1)).sum ∧
    (k ∈ hs ↔ k ∈ fixedHeaders ∨
      ∃ r ∈ regs.filter (fun r => r.eventId == eid), k ∈ regCustomKeys r) := by
  have hE : exportRegistrations uid adm db regs eid =
      (if ev.userId ≠ uid ∧ ¬ adm then
        .error (.forbidden "Not authorized to export this data.")
      else if (regs.filter (fun r => r.eventId == eid)).isEmpty then
        .error (.notFound "No registrations found for this event.")
      else
        .ok (buildHeaders (regs.filter (fun r => r.eventId == eid)),
             flattenRegistrations ev.type
               (regs.filter (fun r => r.eventId == eid)))) := by
    unfold exportRegistrations
    rw [hfind]
  rw [hE] at hok
  split at hok
  · exact (Except.noConfusion hok)
  · split at hok
    · exact (Except.noConfusion hok)
    · simp only [Except.ok.injEq, Prod.mk.injEq] at hok
      obtain ⟨hhs, hrows⟩ := hok
      subst hhs
      subst hrows
      exact ⟨length_flattenRegistrations _ _, mem_buildHeaders _ _⟩

def c4WRegs : List Registration :=
  [{ (default : Registration) with
      id := 42
      eventId := 31
      userId := 8
      customFields := [("College", "K")]
      selectedTickets :=
        [{ ticketType := some "G", ticketPrice := some 100, quantity := some 2 },
         { ticketType := some "V", ticketPrice := some 200, quantity := some 1 }] },
   { (default : Registration) with id := 43, eventId := 31, userId := 9 }]

def c4WHs : List String :=
  ((exportRegistrations 5 false [c4Event] c4WRegs 31).toOption.getD default).1

def c4WRows : List Row :=
  ((exportRegistrations 5 false [c4Event] c4WRegs 31).toOption.getD default).2

theorem c4_amended_witness :
    c4WRows.length =
      ((c4WRegs.filter (fun r => r.eventId == 31)).map (fun r =>
        if c4Event.type == "culturalEvent" && !r.selectedTickets.isEmpty
        then r.selectedTickets.length else 1)).sum ∧
    ("College" ∈ c4WHs ↔ "College" ∈ fixedHeaders ∨
      ∃ r ∈ c4WRegs.filter (fun r => r.eventId == 31),
        "College" ∈ regCustomKeys r) :=
  c4_amended 5 false [c4Event] c4WRegs 31 c4Event c4WHs c4WRows "College"
    (by decide) (by decide)

/-
  Witness for the amended C1 statement: a concrete confession creation whose
  payload carries month, followed by a concrete update supplying month.
-/

def c1Stored : Post :=
  ((createPost 0 7 "alice" "av" "M" "D" 1 c1Body).toOption).getD default

def c1UpdBody : Body :=
  { Body.empty with month := some "May 2025" }

def c1Updated : Post :=
  ((updatePost 7 false "M2" c1Stored c1UpdBody).toOption).getD default

theorem c1_amended_witness :
    ((c1Stored.type = "event" → culturalFieldsCleared c1Stored = true) ∧
     (c1Stored.type = "culturalEvent" → eventPaymentCleared c1Stored = true) ∧
     ((c1Stored.type = "showcase" ∨ c1Stored.type = "confession" ∨
        c1Stored.type = "news") → regularFieldsCleared c1Stored = true) ∧
     (c1Stored.type ≠ "showcase" → c1Stored.month = c1Body.month)) ∧
    ((c1Updated.type = "event" → culturalFieldsClearedNoTickets c1Updated = true) ∧
     (c1Updated.type = "culturalEvent" → eventPaymentCleared c1Updated = true) ∧
     ((c1Updated.type = "showcase" ∨ c1Updated.type = "confession" ∨
        c1Updated.type = "news") → regularFieldsCleared c1Updated = true) ∧
     (c1Updated.type ≠ "showcase" →
       c1Updated.month = updOptField c1UpdBody.month c1Stored.month)) :=
  c1_amended 0 7 "alice" "av" "M" "D" 1 c1Body c1Stored 7 false "M2" c1Stored
    c1UpdBody c1Updated (by decide) (by decide)

end Confique
